import Mathlib

/-!
Shallow embedding of the devcamper_API bootcamp controller
(src/controllers/bootcamps.js) together with the server wiring in
src/unnamed (Express app setup).  Handlers are pure Lean functions over an
explicit store of documents; persistence calls (find, countDocuments,
findById, ...) are modelled by list operations on the store; thrown
exceptions that the async wrapper forwards to the error middleware are
modelled with Option (none = request fails through the error funnel).
-/

namespace Devcamper

/-! ### JavaScript primitive helpers -/

/-- JavaScript str.startsWith(pre): pre is a prefix of the character
sequence. -/
def strStartsWith (s pre : String) : Bool :=
  pre.toList.isPrefixOf s.toList

/-- JavaScript regex word character, as used by the \b boundary in
`queryStr.replace(/\b(gt|gte|lt|lte|in)\b/g, ...)`. -/
def isWordChar (c : Char) : Bool :=
  c.isAlphanum || c == '_'

/-- The operator tokens of the rewrite regex in getBootcamps (line 21). -/
def opTokens : List String :=
  ["gt", "gte", "lt", "lte", "in"]

/-- Emit one maximal word-character run, prefixing it with a dollar sign when
it is exactly one of the operator tokens.  Since every token character is a
word character, a regex match with \b on both sides is exactly a maximal
word run equal to a token. -/
def emitRun (run : List Char) : List Char :=
  if opTokens.contains (String.mk run) then '$' :: run else run

/-- Worker for replaceOps: the first argument accumulates the current
word-character run in reverse. -/
def replaceOpsGo (run : List Char) : List Char → List Char
  | [] => emitRun run.reverse
  | c :: rest =>
    if isWordChar c then replaceOpsGo (c :: run) rest
    else emitRun run.reverse ++ c :: replaceOpsGo [] rest

/-- The effect of `str.replace(/\b(gt|gte|lt|lte|in)\b/g, m => '$' + m)` on a
single string: every maximal word-character run equal to one of the tokens
gets a '$' prepended. -/
def replaceOps (s : String) : String :=
  String.mk (replaceOpsGo [] s.toList)

/-- JavaScript whitespace skipped by parseInt. -/
def isJsSpace (c : Char) : Bool :=
  c == ' ' || c == '\t' || c == '\n' || c == '\r' || c == '\x0b' || c == '\x0c'

def digitsToNat (l : List Char) : Nat :=
  l.foldl (fun acc c => acc * 10 + (c.toNat - 48)) 0

/-- JavaScript parseInt(s, 10): skip leading whitespace, optional sign, then
the longest digit prefix; none models NaN (no digits at all). -/
def parseIntJS (s : String) : Option Int :=
  let l := s.toList.dropWhile isJsSpace
  let signAndRest : Int × List Char :=
    match l with
    | '-' :: r => (-1, r)
    | '+' :: r => (1, r)
    | _ => (1, l)
  let ds := signAndRest.2.takeWhile Char.isDigit
  if ds.isEmpty then none
  else some (signAndRest.1 * (digitsToNat ds : Int))

/-- JavaScript `x || d` applied to the result of parseInt: NaN (none) and 0
are falsy and fall back to the default. -/
def jsOrInt (o : Option Int) (dflt : Int) : Int :=
  match o with
  | none => dflt
  | some n => if n = 0 then dflt else n

/-- Suffix of the list starting at its last dot, if any. -/
def lastDotSuffix : List Char → Option (List Char)
  | [] => none
  | c :: rest =>
    match lastDotSuffix rest with
    | some e => some e
    | none => if c == '.' then some (c :: rest) else none

/-- Characters after the last slash: the path's base name. -/
def afterLastSlash : List Char → List Char
  | [] => []
  | c :: rest =>
    if rest.contains '/' then afterLastSlash rest
    else if c == '/' then rest else c :: rest

/-- Node's path.parse(name).ext: the extension of the last path component,
empty when the only dot is the leading one (dotfile) or there is no dot. -/
def extOf (name : String) : String :=
  match afterLastSlash name.toList with
  | [] => ""
  | _ :: rest =>
    match lastDotSuffix rest with
    | some e => String.mk e
    | none => ""

/-! ### Query-string model

Express parses the query string into a mapping whose values are either plain
strings (`city=Boston`) or one-level objects for bracketed operator keys
(`price[gte]=100` gives price maps-to an object with key gte). -/

inductive QVal where
  | str : String → QVal
  | obj : List (String × String) → QVal
deriving DecidableEq

/-- The reserved control keys deleted from the filter candidate
(bootcamps.js line 15). -/
def removedKeys : List String :=
  ["select", "sort", "page", "limit"]

/-- `removeFields.forEach(param => delete reqQuery[param])`. -/
def removeFields (q : List (String × QVal)) : List (String × QVal) :=
  q.filter (fun p => !(removedKeys.contains p.1))

/-- Effect of the serialize / regex-replace / parse pipeline on one value.
JSON.stringify quotes keys and values; the quote is not a word character, so
the global regex acts independently inside each quoted component (assuming
components free of characters that JSON-escape, which would add adjacent
word characters such as the n of a \n escape). -/
def replaceQVal : QVal → QVal
  | QVal.str s => QVal.str (replaceOps s)
  | QVal.obj l => QVal.obj (l.map (fun p => (replaceOps p.1, replaceOps p.2)))

/-- The query translator of getBootcamps (lines 12-24): drop the control
keys, then apply the operator rewrite to every remaining key and value. -/
def translateQuery (q : List (String × QVal)) : List (String × QVal) :=
  (removeFields q).map (fun p => (replaceOps p.1, replaceQVal p.2))

/-- Value handed to parseInt for a query key: a present plain string is
parsed; an absent key is undefined and a nested object stringifies to a
non-numeric form, both of which parseInt turns into NaN. -/
def queryParamInt (q : List (String × QVal)) (key : String) : Option Int :=
  match q.lookup key with
  | some (QVal.str s) => parseIntJS s
  | some (QVal.obj _) => none
  | none => none

/-- `const page = parseInt(req.query.page, 10) || 1` (line 41). -/
def pageOf (q : List (String × QVal)) : Int :=
  jsOrInt (queryParamInt q "page") 1

/-- `const limit = parseInt(req.query.limit, 10) || 100` (line 42). -/
def limitOf (q : List (String × QVal)) : Int :=
  jsOrInt (queryParamInt q "limit") 100

/-! ### Documents and filter matching

A stored bootcamp document is a list of fields; values are strings or
integers (the schema fields the claims touch).  Filter matching models the
document store's evaluation of the translated filter: exact match for plain
values (with the schema's numeric coercion of query strings on integer
fields), and comparison operators for rewritten bracketed keys.  A $in with
a plain-string operand, and any unrecognized operator key, would be a
persistence-layer error; both are modelled as matching nothing. -/

inductive DVal where
  | str : String → DVal
  | int : Int → DVal
deriving DecidableEq

abbrev Doc := List (String × DVal)

/-- A document's _id field, as the string mongoose exposes. -/
def docId (d : Doc) : String :=
  match d.lookup "_id" with
  | some (DVal.str s) => s
  | _ => ""

def numOpMatches (n : Int) (op : String) (v : String) : Bool :=
  match String.toInt? v with
  | none => false
  | some m =>
    if op == "$gt" then decide (n > m)
    else if op == "$gte" then decide (n ≥ m)
    else if op == "$lt" then decide (n < m)
    else if op == "$lte" then decide (n ≤ m)
    else false

def strOpMatches (t op v : String) : Bool :=
  if op == "$gt" then decide (v < t)
  else if op == "$gte" then !(decide (t < v))
  else if op == "$lt" then decide (t < v)
  else if op == "$lte" then !(decide (v < t))
  else false

def opMatches (dv : Option DVal) (op v : String) : Bool :=
  match dv with
  | some (DVal.int n) => numOpMatches n op v
  | some (DVal.str t) => strOpMatches t op v
  | none => false

def condMatches (d : Doc) (field : String) : QVal → Bool
  | QVal.str s =>
    match d.lookup field with
    | some (DVal.str t) => t == s
    | some (DVal.int n) => String.toInt? s == some n
    | none => false
  | QVal.obj ops => ops.all (fun p => opMatches (d.lookup field) p.1 p.2)

def docMatches (filter : List (String × QVal)) (d : Doc) : Bool :=
  filter.all (fun p => condMatches d p.1 p.2)

/-- The number of store records matching a request's translated filter:
what a filtered countDocuments would return. -/
def matchingCount (q : List (String × QVal)) (store : List Doc) : Nat :=
  (store.filter (docMatches (translateQuery q))).length

/-! ### Pagination engine (getBootcamps lines 40-67) -/

structure Pagination where
  next : Option (Int × Int)
  prev : Option (Int × Int)
deriving DecidableEq

/-- startIndex/endIndex computation and the conditional next/prev
descriptors, exactly as in lines 43-44 and 52-67. -/
def paginationOf (page limit : Int) (total : Nat) : Pagination :=
  let startIndex := (page - 1) * limit
  let endIndex := page * limit
  { next := if endIndex < (total : Int) then some (page + 1, limit) else none,
    prev := if startIndex > 0 then some (page - 1, limit) else none }

/-! ### Handlers -/

/-- Fields of a JSON response body.  fdoc and fdocs carry documents as the
store holds them (the schema's JSON rendering is external); fempty is the
literal empty object the delete handler sends. -/
inductive BodyField where
  | fbool : Bool → BodyField
  | fnum : Int → BodyField
  | fstr : String → BodyField
  | fdoc : Doc → BodyField
  | fdocs : List Doc → BodyField
  | fempty : BodyField
deriving DecidableEq

abbrev Body := List (String × BodyField)

/-- Outcome of a handler: res.status(s).json(body), or
next(new ErrorResponse(msg, status)) handed to the error middleware. -/
inductive HResult where
  | json (status : Nat) (body : Body)
  | nextErr (msg : String) (status : Nat)
deriving DecidableEq

def bodyOf : HResult → Option Body
  | HResult.json _ b => some b
  | HResult.nextErr _ _ => none

/-- The success field of a response body, if any. -/
def successFieldOf (r : HResult) : Option BodyField :=
  (bodyOf r).bind (fun b => b.lookup "success")

/-- Bootcamp.findById: the store record whose _id is the given id. -/
def findById (store : List Doc) (id : String) : Option Doc :=
  store.find? (fun d => docId d == id)

/-- The response of getBootcamps (lines 10-77).  Projection (select), sort
order and the courses population affect only the shape and order of the
returned data, not any claim, and are not modelled; the data window is the
skip/limit slice of the filtered store.  A negative skip (possible when
page parses negative) is rejected by the persistence layer, so the awaited
query throws and the request ends in the error funnel: modelled as none. -/
structure ListResponse where
  status : Nat
  success : Bool
  count : Nat
  pagination : Pagination
  data : List Doc
deriving DecidableEq

def getBootcamps (q : List (String × QVal)) (store : List Doc) :
    Option ListResponse :=
  let filter := translateQuery q
  let results := store.filter (docMatches filter)
  let page := pageOf q
  let limit := limitOf q
  let startIndex := (page - 1) * limit
  let total := store.length
  if startIndex < 0 then none
  else
    let window := (results.drop startIndex.toNat).take limit.natAbs
    some { status := 200, success := true, count := window.length,
           pagination := paginationOf page limit total, data := window }

/-- getBootcamp (lines 82-93). -/
def getBootcamp (id : String) (store : List Doc) : HResult :=
  match findById store id with
  | none => HResult.nextErr ("Bootcamp not found with id of " ++ id) 404
  | some bc =>
    HResult.json 200
      [("success", BodyField.fbool true), ("data", BodyField.fdoc bc)]

/-- createBootcamp (lines 98-105).  Bootcamp.create applies external schema
processing; the created record is modelled as the request body.  The body
literal spells the first key exactly as the source does. -/
def createBootcamp (body : Doc) : HResult :=
  HResult.json 201
    [("sucess", BodyField.fbool true), ("data", BodyField.fdoc body)]

def setField (d : Doc) (k : String) (v : DVal) : Doc :=
  if d.any (fun p => p.1 == k) then
    d.map (fun p => if p.1 == k then (k, v) else p)
  else d ++ [(k, v)]

/-- The document returned by findByIdAndUpdate with new:true: the stored
record with the request body's fields applied. -/
def applyUpdate (d : Doc) (body : Doc) : Doc :=
  body.foldl (fun acc p => setField acc p.1 p.2) d

/-- updateBootcamp (lines 110-124). -/
def updateBootcamp (id : String) (body : Doc) (store : List Doc) : HResult :=
  match findById store id with
  | none => HResult.nextErr ("Bootcamp not found with id of " ++ id) 404
  | some bc =>
    HResult.json 200
      [("success", BodyField.fbool true),
       ("data", BodyField.fdoc (applyUpdate bc body))]

/-- deleteBootcamp (lines 129-142): fetch, 404 when absent, else remove the
record and send the empty-object body. -/
def deleteBootcamp (id : String) (store : List Doc) : HResult :=
  match findById store id with
  | none => HResult.nextErr ("Bootcamp not found with id of " ++ id) 404
  | some _ =>
    HResult.json 200
      [("success", BodyField.fbool true), ("data", BodyField.fempty)]

/-! ### Radius search (getBootcampsInRadius, lines 148-174)

The geocoder is an external collaborator, passed in as a function from
zipcode to its result list; the spatial filter execution is likewise passed
in, keyed by the query the handler issues.  The distance route parameter's
numeric coercion (JS string division) is represented by a rational
distance.  When the geocoder result list is empty, loc[0] is undefined and
reading .latitude throws; the async wrapper forwards the exception to the
error middleware, modelled as none. -/

structure GeoLoc where
  latitude : Rat
  longitude : Rat
deriving DecidableEq

/-- The $geoWithin/$centerSphere query issued to the store:
center [long, lat] and angular radius. -/
structure RadiusQuery where
  center : Rat × Rat
  radius : Rat
deriving DecidableEq

/-- Lines 152-167: first geocoder result's coordinates and the radius
distance / 3963 (Earth's radius in miles). -/
def radiusQueryOf (geocode : String → List GeoLoc) (zipcode : String)
    (distance : Rat) : Option RadiusQuery :=
  (geocode zipcode).head?.map (fun loc =>
    { center := (loc.longitude, loc.latitude), radius := distance / 3963 })

def getBootcampsInRadius (geocode : String → List GeoLoc) (zipcode : String)
    (distance : Rat) (within : RadiusQuery → List Doc) : Option HResult :=
  (radiusQueryOf geocode zipcode distance).map (fun rq =>
    let bootcamps := within rq
    HResult.json 200
      [("success", BodyField.fbool true),
       ("count", BodyField.fnum (bootcamps.length : Int)),
       ("data", BodyField.fdocs bootcamps)])

/-! ### Photo upload (bootcampPhotoUpload, lines 179-219) -/

structure UploadedFile where
  name : String
  mimetype : String
  size : Nat
deriving DecidableEq

/-- What the handler does before returning: forward an error, or initiate
the storage write file.mv with the generated filename.  The database update
of the photo field and the success response happen only inside the mv
callback, after a successful storage write. -/
inductive PhotoResult where
  | nextErr (msg : String) (status : Nat)
  | move (filename : String)
deriving DecidableEq

/-- The size guard as written at line 198: `!file.size > MAX_FILE_UPLOAD`.
JS precedence negates first, so the left side is the boolean !size coerced
to 0 or 1, compared against the numeric value of the env string. -/
def sizeGuard (size maxUpload : Nat) : Bool :=
  decide ((if size == 0 then 1 else 0) > maxUpload)

def bootcampPhotoUpload (id : String) (store : List Doc)
    (files : Option UploadedFile) (maxUpload : Nat) : PhotoResult :=
  match findById store id with
  | none => PhotoResult.nextErr ("Bootcamp not found with id of " ++ id) 404
  | some bootcamp =>
    match files with
    | none => PhotoResult.nextErr "Please upload a file" 400
    | some file =>
      if !(strStartsWith file.mimetype "image") then
        PhotoResult.nextErr "Please upload an image" 400
      else if sizeGuard file.size maxUpload then
        PhotoResult.nextErr
          ("Please upload an image smaller than " ++ toString maxUpload) 400
      else
        PhotoResult.move ("photo_" ++ docId bootcamp ++ extOf file.name)

def initiatesStorageWrite : PhotoResult → Bool
  | PhotoResult.move _ => true
  | PhotoResult.nextErr _ _ => false

/-- The record's photo field after the request: findByIdAndUpdate with the
generated name runs only in the mv success callback, so the field changes
only when a move was initiated and the storage write succeeded. -/
def photoFieldAfter (orig : String) (r : PhotoResult)
    (mvSucceeded : Bool) : String :=
  match r, mvSucceeded with
  | PhotoResult.move fn, true => fn
  | _, _ => orig

/-! ### Theorems about the claims -/

/-- C1: the size guard at line 198 is written `!file.size > MAX_FILE_UPLOAD`;
negation binds first, so the comparison is 0-or-1 against the maximum and
never fires for a nonempty file.  Evaluating the handler on an existing
record with an image of 1000001 bytes against a maximum of 1000000 shows the
storage write (file.mv) is initiated instead of the intended 400. -/
theorem c1_oversize_upload_initiates_storage_write :
    bootcampPhotoUpload "5d7a514b5d2c12c7449be045"
        [[("_id", DVal.str "5d7a514b5d2c12c7449be045")]]
        (some { name := "big.jpg", mimetype := "image/jpeg", size := 1000001 })
        1000000
      = PhotoResult.move "photo_5d7a514b5d2c12c7449be045.jpg"
    ∧ initiatesStorageWrite
        (bootcampPhotoUpload "5d7a514b5d2c12c7449be045"
          [[("_id", DVal.str "5d7a514b5d2c12c7449be045")]]
          (some { name := "big.jpg", mimetype := "image/jpeg",
                  size := 1000001 }) 1000000) = true := by
  decide

/-- C2: createBootcamp (line 102) spells the envelope key as sucess, so the
create success response carries no success field at all, violating the
uniform envelope that every other handler sends. -/
theorem c2_create_response_lacks_success_field :
    successFieldOf (createBootcamp [("name", DVal.str "Devworks")]) = none
    ∧ (bodyOf (createBootcamp [("name", DVal.str "Devworks")])).bind
        (fun b => b.lookup "sucess") = some (BodyField.fbool true)
    ∧ createBootcamp [("name", DVal.str "Devworks")]
        = HResult.json 201
            [("sucess", BodyField.fbool true),
             ("data", BodyField.fdoc [("name", DVal.str "Devworks")])] := by
  decide

/-- C3 counterexample: with a store of two records of which one matches the
filter city=Boston, and page=1 limit=1, the matching count is 1 and
1 * 1 < 1 fails, so the claim predicts no next descriptor; the handler
nevertheless emits next = (2, 1), because line 45 counts the whole store. -/
theorem c3_counterexample :
    matchingCount
        [("city", QVal.str "Boston"), ("page", QVal.str "1"),
         ("limit", QVal.str "1")]
        [[("_id", DVal.str "b1"), ("city", DVal.str "Boston")],
         [("_id", DVal.str "b2"), ("city", DVal.str "NYC")]] = 1
    ∧ ¬ ((1 : Int) * 1 < (1 : Int))
    ∧ (getBootcamps
          [("city", QVal.str "Boston"), ("page", QVal.str "1"),
           ("limit", QVal.str "1")]
          [[("_id", DVal.str "b1"), ("city", DVal.str "Boston")],
           [("_id", DVal.str "b2"), ("city", DVal.str "NYC")]]).map
        (fun r => r.pagination.next) = some (some (2, 1)) := by
  decide

/-- C3 amended: the total feeding the pagination result is the size of the
whole store (countDocuments() is called with no filter at line 45), obtained
independently of the windowed fetch; it is not the filtered count. -/
theorem c3_total_is_whole_store (q : List (String × QVal)) (store : List Doc)
    (r : ListResponse) (h : getBootcamps q store = some r) :
    r.pagination = paginationOf (pageOf q) (limitOf q) store.length := by
  simp only [getBootcamps] at h
  split at h
  · exact Option.noConfusion h
  · rw [Option.some_inj] at h
    subst h
    rfl

/-- C3 witness: the amended statement evaluated on a one-record store. -/
theorem c3_total_is_whole_store_witness :
    getBootcamps [("city", QVal.str "Boston")]
        [[("_id", DVal.str "b1"), ("city", DVal.str "Boston")]]
      = some { status := 200, success := true, count := 1,
               pagination := paginationOf 1 100 1,
               data := [[("_id", DVal.str "b1"), ("city", DVal.str "Boston")]] }
    ∧ ({ status := 200, success := true, count := 1,
         pagination := paginationOf 1 100 1,
         data := [[("_id", DVal.str "b1"), ("city", DVal.str "Boston")]] }
          : ListResponse).pagination = paginationOf 1 100 1 :=
  ⟨by decide,
   c3_total_is_whole_store [("city", QVal.str "Boston")]
     [[("_id", DVal.str "b1"), ("city", DVal.str "Boston")]] _ (by decide)⟩

/-- C4: the pagination result contains next = (page+1, limit) exactly when
page * limit < total (endIndex < total at line 55), and prev =
(page-1, limit) exactly when (page-1) * limit > 0 (startIndex > 0, line 62). -/
theorem c4_pagination_next_prev_iff (page limit : Int) (total : Nat) :
    ((paginationOf page limit total).next = some (page + 1, limit)
        ↔ page * limit < (total : Int))
    ∧ ((paginationOf page limit total).prev = some (page - 1, limit)
        ↔ 0 < (page - 1) * limit) := by
  simp only [paginationOf]
  constructor
  · split <;> simp_all
  · split <;> simp_all

/-- C4 witness: page 2, limit 10, 25 records give both descriptors. -/
theorem c4_pagination_witness :
    (paginationOf 2 10 25).next = some (3, 10)
    ∧ (paginationOf 2 10 25).prev = some (1, 10) :=
  ⟨(c4_pagination_next_prev_iff 2 10 25).1.mpr (by decide),
   (c4_pagination_next_prev_iff 2 10 25).2.mpr (by decide)⟩

/-- C5 counterexample: a plain key city with the plain value in carries no
bracketed operator suffix, yet the textual rewrite turns the value into
the string with a dollar prefix, so it is not passed through unchanged as an
exact-match predicate. -/
theorem c5_counterexample :
    translateQuery [("city", QVal.str "in")] = [("city", QVal.str "$in")]
    ∧ translateQuery [("city", QVal.str "in")] ≠ [("city", QVal.str "in")] := by
  decide

/-- C5 amended: bracketed operator keys with an allow-listed op are rewritten
to the dollar form for that field, and a plain key/value pair is passed
through unchanged provided neither the key nor the value contains a
standalone occurrence of an operator token (the rewrite is textual over the
serialized query, so such occurrences anywhere are also rewritten). -/
theorem c5_rewrite_amended (field op v k s : String)
    (hop : op ∈ opTokens)
    (hf : replaceOps field = field)
    (hv : replaceOps v = v)
    (hfr : field ∉ removedKeys)
    (hk : replaceOps k = k)
    (hs : replaceOps s = s)
    (hkr : k ∉ removedKeys) :
    translateQuery [(field, QVal.obj [(op, v)])]
        = [(field, QVal.obj [("$" ++ op, v)])]
    ∧ translateQuery [(k, QVal.str s)] = [(k, QVal.str s)] := by
  have hop' : replaceOps op = "$" ++ op := by
    simp only [opTokens, List.mem_cons, List.not_mem_nil, or_false] at hop
    rcases hop with h | h | h | h | h <;> subst h <;> decide
  constructor
  · simp [translateQuery, removeFields, List.filter, hfr, replaceQVal, hf, hv,
      hop']
  · simp [translateQuery, removeFields, List.filter, hkr, replaceQVal, hk, hs]

/-- C5 witness: price with bracketed gte 100 becomes the dollar-gte operator
node, and a clean plain pair passes through. -/
theorem c5_rewrite_witness :
    translateQuery [("price", QVal.obj [("gte", "100")])]
        = [("price", QVal.obj [("$gte", "100")])]
    ∧ translateQuery [("name", QVal.str "Devworks")]
        = [("name", QVal.str "Devworks")] := by
  have h := c5_rewrite_amended "price" "gte" "100" "name" "Devworks"
    (by decide) (by decide) (by decide) (by decide) (by decide) (by decide)
    (by decide)
  exact ⟨h.1, h.2⟩

/-- C6 counterexample: the query value -2 parses to a nonzero integer, so the
truthiness fallback does not fire and the non-positive page -2 is used. -/
theorem c6_counterexample :
    pageOf [("page", QVal.str "-2")] = -2
    ∧ ¬ (0 < pageOf [("page", QVal.str "-2")]) := by
  decide

/-- Helper: the truthiness fallback never yields zero when the default is
nonzero. -/
theorem jsOrInt_ne_zero (o : Option Int) (d : Int) (hd : d ≠ 0) :
    jsOrInt o d ≠ 0 := by
  cases o with
  | none => exact hd
  | some n =>
    by_cases hn : n = 0
    · simp only [jsOrInt, if_pos hn]
      exact hd
    · simp only [jsOrInt, if_neg hn]
      exact hn

/-- C6 amended: absent, unparseable, or zero page/limit values fall back to
1 and 100, and the used values are never zero; but a value parsing to a
negative integer is used as-is, so positivity is not guaranteed. -/
theorem c6_page_limit_amended (q : List (String × QVal)) :
    pageOf q ≠ 0 ∧ limitOf q ≠ 0
    ∧ (queryParamInt q "page" = none → pageOf q = 1)
    ∧ (queryParamInt q "limit" = none → limitOf q = 100)
    ∧ (∀ n : Int, queryParamInt q "page" = some n → n ≠ 0 → pageOf q = n)
    ∧ (∀ n : Int, queryParamInt q "limit" = some n → n ≠ 0 → limitOf q = n) := by
  refine ⟨jsOrInt_ne_zero _ _ (by decide), jsOrInt_ne_zero _ _ (by decide),
    ?_, ?_, ?_, ?_⟩
  · intro h; simp [pageOf, h, jsOrInt]
  · intro h; simp [limitOf, h, jsOrInt]
  · intro n h hn; simp [pageOf, h, jsOrInt, hn]
  · intro n h hn; simp [limitOf, h, jsOrInt, hn]

/-- C6 witness: an unparseable page value and an absent limit fall back. -/
theorem c6_page_limit_witness :
    pageOf [("page", QVal.str "x")] = 1
    ∧ limitOf [("page", QVal.str "x")] = 100 :=
  ⟨(c6_page_limit_amended [("page", QVal.str "x")]).2.2.1 (by decide),
   (c6_page_limit_amended [("page", QVal.str "x")]).2.2.2.1 (by decide)⟩

/-- C7 counterexample: the mimetype imagepng does not begin with the slashed
prefix, yet the guard at line 193 checks only the bare prefix image, so the
handler initiates the storage write instead of returning 400. -/
theorem c7_counterexample :
    strStartsWith "imagepng" "image/" = false
    ∧ bootcampPhotoUpload "b1" [[("_id", DVal.str "b1")]]
        (some { name := "x.png", mimetype := "imagepng", size := 5 }) 1000000
      = PhotoResult.move "photo_b1.png"
    ∧ initiatesStorageWrite
        (bootcampPhotoUpload "b1" [[("_id", DVal.str "b1")]]
          (some { name := "x.png", mimetype := "imagepng", size := 5 })
          1000000) = true := by
  decide

/-- C7 amended: when the attached file's MIME type does not begin with the
bare prefix image (the guard the code actually checks), the handler returns
the 400 error, initiates no storage write, and the record's photo field is
left unchanged whatever the storage outcome would have been. -/
theorem c7_nonimage_mime_amended (id : String) (store : List Doc)
    (file : UploadedFile) (maxUpload : Nat) (d : Doc) (orig : String)
    (hfind : findById store id = some d)
    (hmime : strStartsWith file.mimetype "image" = false) :
    bootcampPhotoUpload id store (some file) maxUpload
        = PhotoResult.nextErr "Please upload an image" 400
    ∧ initiatesStorageWrite
        (bootcampPhotoUpload id store (some file) maxUpload) = false
    ∧ ∀ mv : Bool,
        photoFieldAfter orig
          (bootcampPhotoUpload id store (some file) maxUpload) mv = orig := by
  simp only [bootcampPhotoUpload, hfind, hmime]
  simp [initiatesStorageWrite, photoFieldAfter]

/-- C7 witness: a text file on an existing record draws the 400 error. -/
theorem c7_nonimage_mime_witness :
    bootcampPhotoUpload "b2" [[("_id", DVal.str "b2")]]
        (some { name := "notes.txt", mimetype := "text/plain", size := 5 })
        1000000
      = PhotoResult.nextErr "Please upload an image" 400 :=
  (c7_nonimage_mime_amended "b2" [[("_id", DVal.str "b2")]]
    { name := "notes.txt", mimetype := "text/plain", size := 5 } 1000000
    [("_id", DVal.str "b2")] "no-photo.jpg" (by decide) (by decide)).1

/-- C8: an identifier resolving to no record makes get-one, update and
delete each forward the not-found error with status 404, whose message is
the fixed prefix followed by the identifier; none of them sends a body. -/
theorem c8_missing_id_not_found (id : String) (store : List Doc) (body : Doc)
    (h : findById store id = none) :
    getBootcamp id store
        = HResult.nextErr ("Bootcamp not found with id of " ++ id) 404
    ∧ updateBootcamp id body store
        = HResult.nextErr ("Bootcamp not found with id of " ++ id) 404
    ∧ deleteBootcamp id store
        = HResult.nextErr ("Bootcamp not found with id of " ++ id) 404
    ∧ bodyOf (getBootcamp id store) = none
    ∧ bodyOf (updateBootcamp id body store) = none
    ∧ bodyOf (deleteBootcamp id store) = none := by
  simp only [getBootcamp, updateBootcamp, deleteBootcamp, h]
  simp [bodyOf]

/-- C8 witness: the empty store resolves no identifier. -/
theorem c8_missing_id_witness :
    getBootcamp "5f8d" []
        = HResult.nextErr "Bootcamp not found with id of 5f8d" 404 :=
  (c8_missing_id_not_found "5f8d" [] [] (by decide)).1

/-- C9: the angular radius in the issued centerSphere query is the distance
divided by 3963 (line 159); for distance 10 this is 10 / 3963, within
0.000001 of 0.002523. -/
theorem c9_radius_conversion (geocode : String → List GeoLoc)
    (zipcode : String) (distance : Rat) (loc : GeoLoc) (rest : List GeoLoc)
    (h : geocode zipcode = loc :: rest) :
    radiusQueryOf geocode zipcode distance
        = some { center := (loc.longitude, loc.latitude),
                 radius := distance / 3963 }
    ∧ radiusQueryOf geocode zipcode 10
        = some { center := (loc.longitude, loc.latitude),
                 radius := 10 / 3963 }
    ∧ |(10 : Rat) / 3963 - 2523 / 1000000| < 1 / 1000000 := by
  simp only [radiusQueryOf, h]
  refine ⟨rfl, rfl, ?_⟩
  rw [abs_of_nonneg (by norm_num)]
  norm_num

/-- C9 witness: a single-result geocoder with center Boston-like
coordinates. -/
theorem c9_radius_witness :
    radiusQueryOf (fun _ => [{ latitude := 42, longitude := -71 }]) "02118" 10
      = some { center := (-71, 42), radius := 10 / 3963 } :=
  (c9_radius_conversion (fun _ => [{ latitude := 42, longitude := -71 }])
    "02118" 10 { latitude := 42, longitude := -71 } [] rfl).1

/-- C10: when the geocoder returns no results, loc[0] is undefined and the
latitude read throws, so the handler produces no success response at all:
the request fails through the error path (modelled as none), and no spatial
query is issued. -/
theorem c10_empty_geocode_error_path (geocode : String → List GeoLoc)
    (zipcode : String) (distance : Rat) (within : RadiusQuery → List Doc)
    (h : geocode zipcode = []) :
    getBootcampsInRadius geocode zipcode distance within = none
    ∧ radiusQueryOf geocode zipcode distance = none := by
  simp only [getBootcampsInRadius, radiusQueryOf, h]
  exact ⟨rfl, rfl⟩

/-- C10 witness: an always-empty geocoder fails the radius request. -/
theorem c10_empty_geocode_witness :
    getBootcampsInRadius (fun _ => []) "99999" 10 (fun _ => []) = none :=
  (c10_empty_geocode_error_path (fun _ => []) "99999" 10 (fun _ => []) rfl).1

end Devcamper
